import Mathlib

/-!
Verification of the EVM calculation core of the project-schedule-cost-control
dashboard (src/App.tsx, src/types.ts).

The two computations with algorithmic content are the `results` memo
(the MetricsEvaluator, `evaluate` in the external interface) and the
`chartData` memo (the SeriesInterpolator, `interpolateSeries`).  Both are
pure functions of one `EVMMetrics` record.  JavaScript numbers are modelled
as rationals; `Math.round` is modelled as floor of x + 1/2, which is its
semantics on the reals (round half toward positive infinity).
-/

/-- Input snapshot, from `EVMMetrics` in src/types.ts. -/
structure EVMMetrics where
  pv : ℚ
  ev : ℚ
  ac : ℚ
  bac : ℚ
  totalDurationDays : ℚ
  elapsedDays : ℚ
deriving DecidableEq, Repr

/-- Output record, from `EVMResults` in src/types.ts. -/
structure EVMResults where
  sv : ℚ
  spi : ℚ
  cv : ℚ
  cpi : ℚ
  eac : ℚ
  etc : ℚ
  vac : ℚ
  tcpi : ℚ
  estimatedCompletionDays : ℚ
  scheduleVarianceDays : ℚ
deriving DecidableEq, Repr

/-- Chart point, from `ChartDataPoint` in src/types.ts; all four fields are
produced by `Math.round`, hence integers. -/
structure ChartDataPoint where
  day : ℤ
  pv : ℤ
  ev : ℤ
  ac : ℤ
deriving DecidableEq, Repr

/-- JavaScript `Math.round`: round half toward positive infinity. -/
def jsRound (q : ℚ) : ℤ := ⌊q + 1/2⌋

/-- The MetricsEvaluator: the `results` useMemo of src/App.tsx lines 33-54,
transcribed clause for clause (`9.99` is the literal `999/100`). -/
def results (m : EVMMetrics) : EVMResults :=
  let sv := m.ev - m.pv
  let spi := if m.pv = 0 then 1 else m.ev / m.pv
  let cv := m.ev - m.ac
  let cpi := if m.ac = 0 then 1 else m.ev / m.ac
  let eac := if cpi = 0 then m.bac else m.bac / cpi
  let etc := eac - m.ac
  let vac := m.bac - eac
  let workRemaining := m.bac - m.ev
  let fundsRemaining := m.bac - m.ac
  let tcpi := if fundsRemaining ≤ 0 then (if 0 < workRemaining then 999/100 else 0)
              else workRemaining / fundsRemaining
  let estimatedCompletionDays := if spi = 0 then m.totalDurationDays
                                 else m.totalDurationDays / spi
  let scheduleVarianceDays := estimatedCompletionDays - m.totalDurationDays
  { sv := sv, spi := spi, cv := cv, cpi := cpi, eac := eac, etc := etc,
    vac := vac, tcpi := tcpi, estimatedCompletionDays := estimatedCompletionDays,
    scheduleVarianceDays := scheduleVarianceDays }

/-- One iteration of the `chartData` loop of src/App.tsx lines 61-70:
the point pushed at step `i` (with `stepDays = elapsedDays / 10` and
`ratio = i / 10`). -/
def chartStep (m : EVMMetrics) (i : ℕ) : ChartDataPoint :=
  let stepDays := m.elapsedDays / 10
  let ratio := (i : ℚ) / 10
  { day := jsRound ((i : ℚ) * stepDays)
    pv := jsRound (m.pv * ratio)
    ev := jsRound (m.ev * ratio)
    ac := jsRound (m.ac * ratio) }

/-- The SeriesInterpolator: the `chartData` useMemo of src/App.tsx lines
56-72.  The loop runs `i = 0, 1, ..., 10` inclusive, pushing one point per
step. -/
def chartData (m : EVMMetrics) : List ChartDataPoint :=
  (List.range 11).map (chartStep m)

/-- Division that fails (returns `none`) on a zero divisor, used to make the
partiality of division observable in the checked evaluators. -/
def qdiv (a b : ℚ) : Option ℚ := if b = 0 then none else some (a / b)

/-- The MetricsEvaluator with every division routed through `qdiv`, so that
an unguarded division by zero would surface as `none` (written with explicit
`Option.bind`, one bind per guarded division of the source). -/
def resultsChecked (m : EVMMetrics) : Option EVMResults :=
  Option.bind (if m.pv = 0 then some 1 else qdiv m.ev m.pv) fun spi =>
  Option.bind (if m.ac = 0 then some 1 else qdiv m.ev m.ac) fun cpi =>
  Option.bind (if cpi = 0 then some m.bac else qdiv m.bac cpi) fun eac =>
  Option.bind (if m.bac - m.ac ≤ 0 then some (if 0 < m.bac - m.ev then 999/100 else 0)
               else qdiv (m.bac - m.ev) (m.bac - m.ac)) fun tcpi =>
  Option.bind (if spi = 0 then some m.totalDurationDays
               else qdiv m.totalDurationDays spi) fun estimatedCompletionDays =>
  some { sv := m.ev - m.pv, spi := spi, cv := m.ev - m.ac, cpi := cpi, eac := eac,
         etc := eac - m.ac, vac := m.bac - eac, tcpi := tcpi,
         estimatedCompletionDays := estimatedCompletionDays,
         scheduleVarianceDays := estimatedCompletionDays - m.totalDurationDays }

/-- One step of the SeriesInterpolator with its two divisions routed through
`qdiv`. -/
def chartStepChecked (m : EVMMetrics) (i : ℕ) : Option ChartDataPoint := do
  let stepDays ← qdiv m.elapsedDays 10
  let ratio ← qdiv (i : ℚ) 10
  some { day := jsRound ((i : ℚ) * stepDays)
         pv := jsRound (m.pv * ratio)
         ev := jsRound (m.ev * ratio)
         ac := jsRound (m.ac * ratio) }

/-- The SeriesInterpolator with divisions routed through `qdiv`. -/
def chartDataChecked (m : EVMMetrics) : Option (List ChartDataPoint) :=
  (List.range 11).mapM (chartStepChecked m)

/-- The spec scenario input of §8:
`{pv:100000, ev:85000, ac:95000, bac:250000, totalDurationDays:180, elapsedDays:60}`. -/
def scenarioMetrics : EVMMetrics :=
  { pv := 100000, ev := 85000, ac := 95000, bac := 250000,
    totalDurationDays := 180, elapsedDays := 60 }

/-- A second metrics record for witnesses: planned value zero. -/
def zeroPVMetrics : EVMMetrics :=
  { pv := 0, ev := 85000, ac := 95000, bac := 250000,
    totalDurationDays := 180, elapsedDays := 60 }

/-- A third metrics record for witnesses: actual cost zero. -/
def zeroACMetrics : EVMMetrics :=
  { pv := 100000, ev := 85000, ac := 0, bac := 250000,
    totalDurationDays := 180, elapsedDays := 60 }

/-- A fourth metrics record for witnesses: earned value zero. -/
def zeroEVMetrics : EVMMetrics :=
  { pv := 100000, ev := 0, ac := 95000, bac := 250000,
    totalDurationDays := 180, elapsedDays := 60 }

theorem results_spi_eq (m : EVMMetrics) :
    (results m).spi = if m.pv = 0 then 1 else m.ev / m.pv := rfl

theorem results_cpi_eq (m : EVMMetrics) :
    (results m).cpi = if m.ac = 0 then 1 else m.ev / m.ac := rfl

theorem results_eac_eq (m : EVMMetrics) :
    (results m).eac = if (results m).cpi = 0 then m.bac else m.bac / (results m).cpi := rfl

theorem results_tcpi_eq (m : EVMMetrics) :
    (results m).tcpi = if m.bac - m.ac ≤ 0 then (if 0 < m.bac - m.ev then 999/100 else 0)
                       else (m.bac - m.ev) / (m.bac - m.ac) := rfl

theorem results_ecd_eq (m : EVMMetrics) :
    (results m).estimatedCompletionDays =
      if (results m).spi = 0 then m.totalDurationDays
      else m.totalDurationDays / (results m).spi := rfl

/-- C6: for every input, `etc = eac - ac` and `vac = bac - eac` hold exactly,
with `eac` the value of the same result record. -/
theorem C6_derived_identities (m : EVMMetrics) :
    (results m).etc = (results m).eac - m.ac ∧ (results m).vac = m.bac - (results m).eac :=
  ⟨rfl, rfl⟩

/-- C1: the tcpi policy: the ratio `(bac - ev) / (bac - ac)` when funds
remain (`bac - ac > 0`), the sentinel `9.99` when funds are exhausted but
work remains, `0` when funds are exhausted and no work remains; in
particular the two `ac = bac` cases. -/
theorem C1_tcpi_policy (m : EVMMetrics) :
    (0 < m.bac - m.ac → (results m).tcpi = (m.bac - m.ev) / (m.bac - m.ac)) ∧
    (m.bac - m.ac ≤ 0 → 0 < m.bac - m.ev → (results m).tcpi = 999/100) ∧
    (m.bac - m.ac ≤ 0 → m.bac - m.ev ≤ 0 → (results m).tcpi = 0) ∧
    (m.ac = m.bac → m.ev < m.bac → (results m).tcpi = 999/100) ∧
    (m.ac = m.bac → m.bac ≤ m.ev → (results m).tcpi = 0) := by
  refine ⟨fun h => ?_, fun h h2 => ?_, fun h h2 => ?_, fun h h2 => ?_, fun h h2 => ?_⟩ <;>
    rw [results_tcpi_eq]
  · rw [if_neg (not_le.mpr h)]
  · rw [if_pos h, if_pos h2]
  · rw [if_pos h, if_neg (not_lt.mpr h2)]
  · rw [if_pos (by rw [h]; simp), if_pos (by linarith)]
  · rw [if_pos (by rw [h]; simp), if_neg (by simp [not_lt]; linarith)]

theorem C1_tcpi_policy_witness :
    (results scenarioMetrics).tcpi =
      (scenarioMetrics.bac - scenarioMetrics.ev) / (scenarioMetrics.bac - scenarioMetrics.ac) :=
  (C1_tcpi_policy scenarioMetrics).1 (by norm_num [scenarioMetrics])

/-- C3: when `pv = 0` the overrides fire: `spi = 1` and
`estimatedCompletionDays = totalDurationDays`. -/
theorem C3_zero_pv (m : EVMMetrics) (h : m.pv = 0) :
    (results m).spi = 1 ∧ (results m).estimatedCompletionDays = m.totalDurationDays := by
  have hs : (results m).spi = 1 := by rw [results_spi_eq, if_pos h]
  exact ⟨hs, by rw [results_ecd_eq, hs, if_neg one_ne_zero, div_one]⟩

theorem C3_zero_pv_witness :
    (results zeroPVMetrics).spi = 1 ∧
    (results zeroPVMetrics).estimatedCompletionDays = zeroPVMetrics.totalDurationDays :=
  C3_zero_pv zeroPVMetrics rfl

/-- C4: when `ac = 0` the overrides fire: `cpi = 1` and `eac = bac`. -/
theorem C4_zero_ac (m : EVMMetrics) (h : m.ac = 0) :
    (results m).cpi = 1 ∧ (results m).eac = m.bac := by
  have hc : (results m).cpi = 1 := by rw [results_cpi_eq, if_pos h]
  exact ⟨hc, by rw [results_eac_eq, hc, if_neg one_ne_zero, div_one]⟩

theorem C4_zero_ac_witness :
    (results zeroACMetrics).cpi = 1 ∧ (results zeroACMetrics).eac = zeroACMetrics.bac :=
  C4_zero_ac zeroACMetrics rfl

/-- A metrics record agreeing with `scenarioMetrics` except on `elapsedDays`. -/
def altElapsedMetrics : EVMMetrics :=
  { pv := 100000, ev := 85000, ac := 95000, bac := 250000,
    totalDurationDays := 180, elapsedDays := 999 }

theorem qdiv_of_ne (a b : ℚ) (h : b ≠ 0) : qdiv a b = some (a / b) := if_neg h

theorem guard_div (a b x : ℚ) :
    (if b = 0 then some x else qdiv a b) = some (if b = 0 then x else a / b) := by
  by_cases h : b = 0
  · simp [h]
  · simp only [if_neg h, qdiv]

theorem guard_div_le (a b x : ℚ) :
    (if b ≤ 0 then some x else qdiv a b) = some (if b ≤ 0 then x else a / b) := by
  by_cases h : b ≤ 0
  · simp [h]
  · have hb : b ≠ 0 := fun h0 => h (le_of_eq h0)
    simp only [if_neg h, qdiv, if_neg hb]

theorem mapM_some_of_map {α β : Type} (f : α → β) (l : List α) :
    l.mapM (fun a => some (f a)) = some (l.map f) := by
  induction l with
  | nil => rfl
  | cons a l ih => rw [List.mapM_cons, ih]; rfl

theorem chartStepChecked_eq (m : EVMMetrics) (i : ℕ) :
    chartStepChecked m i = some (chartStep m i) := by
  simp [chartStepChecked, chartStep, qdiv_of_ne _ _ (by norm_num : (10:ℚ) ≠ 0)]

theorem jsRound_mono {a b : ℚ} (h : a ≤ b) : jsRound a ≤ jsRound b :=
  Int.floor_le_floor (by linarith)

/-- C5: the computed `cpi` is zero exactly when `ev = 0` and `ac ≠ 0`, and
then `eac = bac`; the computed `spi` is zero exactly when `ev = 0` and
`pv ≠ 0`, and then `estimatedCompletionDays = totalDurationDays`. -/
theorem C5_zero_ratio_overrides (m : EVMMetrics) :
    ((results m).cpi = 0 ↔ (m.ev = 0 ∧ m.ac ≠ 0)) ∧
    ((results m).cpi = 0 → (results m).eac = m.bac) ∧
    ((results m).spi = 0 ↔ (m.ev = 0 ∧ m.pv ≠ 0)) ∧
    ((results m).spi = 0 → (results m).estimatedCompletionDays = m.totalDurationDays) := by
  refine ⟨?_, fun h => by rw [results_eac_eq, if_pos h],
          ?_, fun h => by rw [results_ecd_eq, if_pos h]⟩
  · rw [results_cpi_eq]
    by_cases h : m.ac = 0
    · simp [h]
    · simp [h, div_eq_zero_iff]
  · rw [results_spi_eq]
    by_cases h : m.pv = 0
    · simp [h]
    · simp [h, div_eq_zero_iff]

theorem C5_zero_ratio_overrides_witness :
    (results zeroEVMetrics).eac = zeroEVMetrics.bac :=
  (C5_zero_ratio_overrides zeroEVMetrics).2.1
    ((C5_zero_ratio_overrides zeroEVMetrics).1.mpr ⟨rfl, by norm_num [zeroEVMetrics]⟩)

/-- C7: the series has exactly 11 points; point `i` is the rounded linear
ramp at ratio `i / 10`; point 0 is all zeros; point 10 carries the rounded
snapshot values; with `elapsedDays = 0` every day is 0. -/
theorem C7_series_shape (m : EVMMetrics) :
    (chartData m).length = 11 ∧
    (∀ i : ℕ, i < 11 → (chartData m)[i]? = some
      { day := jsRound ((i : ℚ) * (m.elapsedDays / 10)),
        pv := jsRound (m.pv * ((i : ℚ) / 10)),
        ev := jsRound (m.ev * ((i : ℚ) / 10)),
        ac := jsRound (m.ac * ((i : ℚ) / 10)) }) ∧
    (chartData m)[0]? = some { day := 0, pv := 0, ev := 0, ac := 0 } ∧
    (chartData m)[10]? = some { day := jsRound m.elapsedDays, pv := jsRound m.pv,
                                ev := jsRound m.ev, ac := jsRound m.ac } ∧
    (m.elapsedDays = 0 → ∀ p ∈ chartData m, p.day = 0) := by
  have key : ∀ i : ℕ, i < 11 → (chartData m)[i]? = some (chartStep m i) := by
    intro i hi
    simp [chartData, List.getElem?_map, List.getElem?_range, hi]
  refine ⟨by simp [chartData], fun i hi => key i hi, ?_, ?_, ?_⟩
  · rw [key 0 (by norm_num)]
    norm_num [chartStep, jsRound]
  · rw [key 10 (by norm_num)]
    simp only [chartStep, Option.some.injEq, ChartDataPoint.mk.injEq]
    refine ⟨?_, ?_, ?_, ?_⟩ <;> · congr 1; push_cast; ring
  · intro he p hp
    simp only [chartData, List.mem_map] at hp
    obtain ⟨i, _, rfl⟩ := hp
    norm_num [chartStep, he, jsRound]

theorem C7_series_shape_witness :
    (chartData scenarioMetrics)[5]? = some
      { day := jsRound (((5:ℕ) : ℚ) * (scenarioMetrics.elapsedDays / 10)),
        pv := jsRound (scenarioMetrics.pv * (((5:ℕ) : ℚ) / 10)),
        ev := jsRound (scenarioMetrics.ev * (((5:ℕ) : ℚ) / 10)),
        ac := jsRound (scenarioMetrics.ac * (((5:ℕ) : ℚ) / 10)) } :=
  (C7_series_shape scenarioMetrics).2.1 5 (by norm_num)

/-- C8: both core functions are total: the variants in which every division
fails on a zero divisor still return `some`, and agree with the plain
evaluators, for every input. -/
theorem C8_totality (m : EVMMetrics) :
    resultsChecked m = some (results m) ∧ chartDataChecked m = some (chartData m) := by
  constructor
  · simp only [resultsChecked, results, guard_div, guard_div_le, Option.some_bind]
  · unfold chartDataChecked chartData
    rw [show chartStepChecked m = fun i => some (chartStep m i) from
          funext (chartStepChecked_eq m)]
    exact mapM_some_of_map _ _

/-- C9: `results` does not read `elapsedDays`, and `chartData` does not read
`bac` or `totalDurationDays`: inputs agreeing on the respectively relevant
fields produce identical outputs. -/
theorem C9_noninterference (m n : EVMMetrics) :
    (m.pv = n.pv → m.ev = n.ev → m.ac = n.ac → m.bac = n.bac →
      m.totalDurationDays = n.totalDurationDays → results m = results n) ∧
    (m.pv = n.pv → m.ev = n.ev → m.ac = n.ac → m.elapsedDays = n.elapsedDays →
      chartData m = chartData n) := by
  obtain ⟨pv1, ev1, ac1, bac1, td1, ed1⟩ := m
  obtain ⟨pv2, ev2, ac2, bac2, td2, ed2⟩ := n
  constructor
  · intro h1 h2 h3 h4 h5
    cases h1; cases h2; cases h3; cases h4; cases h5; rfl
  · intro h1 h2 h3 h4
    cases h1; cases h2; cases h3; cases h4; rfl

theorem C9_noninterference_witness :
    results scenarioMetrics = results altElapsedMetrics :=
  (C9_noninterference scenarioMetrics altElapsedMetrics).1 rfl rfl rfl rfl rfl

/-- C10: for nonnegative `elapsedDays`, `pv`, `ev`, `ac`, the series is
monotone nondecreasing in every field. -/
theorem C10_series_monotone (m : EVMMetrics) (hed : 0 ≤ m.elapsedDays)
    (hpv : 0 ≤ m.pv) (hev : 0 ≤ m.ev) (hac : 0 ≤ m.ac) (i j : ℕ) (hij : i < j)
    (hj : j < 11) (p q : ChartDataPoint) (hp : (chartData m)[i]? = some p)
    (hq : (chartData m)[j]? = some q) :
    p.day ≤ q.day ∧ p.pv ≤ q.pv ∧ p.ev ≤ q.ev ∧ p.ac ≤ q.ac := by
  have hi : i < 11 := hij.trans hj
  rw [show (chartData m)[i]? = some (chartStep m i) by
        simp [chartData, List.getElem?_map, List.getElem?_range, hi]] at hp
  rw [show (chartData m)[j]? = some (chartStep m j) by
        simp [chartData, List.getElem?_map, List.getElem?_range, hj]] at hq
  obtain rfl : chartStep m i = p := by injection hp
  obtain rfl : chartStep m j = q := by injection hq
  have hcast : (i : ℚ) ≤ (j : ℚ) := by exact_mod_cast hij.le
  have hdiv : (i : ℚ) / 10 ≤ (j : ℚ) / 10 := by gcongr
  exact ⟨jsRound_mono (mul_le_mul_of_nonneg_right hcast (by positivity)),
         jsRound_mono (mul_le_mul_of_nonneg_left hdiv hpv),
         jsRound_mono (mul_le_mul_of_nonneg_left hdiv hev),
         jsRound_mono (mul_le_mul_of_nonneg_left hdiv hac)⟩

theorem C10_series_monotone_witness :
    ChartDataPoint.day { day := 0, pv := 0, ev := 0, ac := 0 } ≤
      ChartDataPoint.day { day := 6, pv := 10000, ev := 8500, ac := 9500 } ∧
    ChartDataPoint.pv { day := 0, pv := 0, ev := 0, ac := 0 } ≤
      ChartDataPoint.pv { day := 6, pv := 10000, ev := 8500, ac := 9500 } ∧
    ChartDataPoint.ev { day := 0, pv := 0, ev := 0, ac := 0 } ≤
      ChartDataPoint.ev { day := 6, pv := 10000, ev := 8500, ac := 9500 } ∧
    ChartDataPoint.ac { day := 0, pv := 0, ev := 0, ac := 0 } ≤
      ChartDataPoint.ac { day := 6, pv := 10000, ev := 8500, ac := 9500 } := by
  have h0 : (chartData scenarioMetrics)[0]? = some { day := 0, pv := 0, ev := 0, ac := 0 } := by
    rw [show (chartData scenarioMetrics)[0]? = some (chartStep scenarioMetrics 0) by
          simp [chartData, List.getElem?_map, List.getElem?_range]]
    norm_num [chartStep, jsRound, scenarioMetrics]
  have h1 : (chartData scenarioMetrics)[1]? =
      some { day := 6, pv := 10000, ev := 8500, ac := 9500 } := by
    rw [show (chartData scenarioMetrics)[1]? = some (chartStep scenarioMetrics 1) by
          simp [chartData, List.getElem?_map, List.getElem?_range]]
    norm_num [chartStep, jsRound, scenarioMetrics]
  exact C10_series_monotone scenarioMetrics (by norm_num [scenarioMetrics])
    (by norm_num [scenarioMetrics]) (by norm_num [scenarioMetrics])
    (by norm_num [scenarioMetrics]) 0 1 (by norm_num) (by norm_num)
    { day := 0, pv := 0, ev := 0, ac := 0 }
    { day := 6, pv := 10000, ev := 8500, ac := 9500 } h0 h1

/-- C2 counterexample: on the §8 scenario the code yields
`eac = 4750000/17 ≈ 279411.76`, `vac = -500000/17 ≈ -29411.76` and
`tcpi = 33/31 ≈ 1.0645`, each far from the claimed `279069.77`, `-29069.77`
and `1.25...` (the `eac`/`vac` gaps exceed 300; `tcpi` is below 1.25). -/
theorem C2_scenario_counterexample :
    (results scenarioMetrics).eac = 4750000 / 17 ∧
    (results scenarioMetrics).vac = -500000 / 17 ∧
    (results scenarioMetrics).tcpi = 33 / 31 ∧
    300 < |(4750000 : ℚ) / 17 - 27906977 / 100| ∧
    300 < |(-500000 : ℚ) / 17 - (-2906977) / 100| ∧
    (33 : ℚ) / 31 < 125 / 100 := by
  refine ⟨by norm_num [results, scenarioMetrics], by norm_num [results, scenarioMetrics],
          by norm_num [results, scenarioMetrics], by rw [abs_of_pos] <;> norm_num,
          by rw [abs_of_neg] <;> norm_num, by norm_num⟩

/-- C2 amended: exact outputs on the §8 scenario: `sv = -15000`,
`spi = 17/20 = 0.85`, `cv = -10000`, `cpi = 17/19 ≈ 0.894`,
`eac = 4750000/17 ≈ 279411.76`, `etc = 3135000/17`, `vac = -500000/17 ≈
-29411.76`, `tcpi = 33/31 ≈ 1.0645`, `estimatedCompletionDays = 3600/17 ≈
211.76`, `scheduleVarianceDays = 540/17 ≈ 31.76`. -/
theorem C2_scenario_exact :
    results scenarioMetrics =
      { sv := -15000, spi := 17/20, cv := -10000, cpi := 17/19, eac := 4750000/17,
        etc := 3135000/17, vac := -500000/17, tcpi := 33/31,
        estimatedCompletionDays := 3600/17, scheduleVarianceDays := 540/17 } := by
  norm_num [results, scenarioMetrics]
